import Mathlib

/-!
Verification of the py3tftp server core (files `py3tftp/file_io.py` and
`py3tftp/protocols.py`) against its natural-language specification.

The Python source is shallowly embedded: byte strings become `List Nat`,
text strings become `List Char`, filesystem paths become lists of path
components (`List (List Char)`), and the per-transfer protocol engines
(`RRQProtocol` / `WRQProtocol`) become explicit step functions on state
records that emit the observable side effects (datagrams sent, timer
operations, transport closure) of each `datagram_received` call or timer
callback.

The repository imports two modules (`tftp_packet`, `tftp_parsing`) and one
external package (`dhcp_leases`) whose sources are not part of the
repository; the packet codec and sequence predicates they provide are
modelled from the specification where noted, and DHCP leases are taken as
an abstract input list.
-/

/-- Decidable equality for `Except` results, so concrete sanitizer
outcomes can be checked by `decide`. -/
instance {ε α : Type} [DecidableEq ε] [DecidableEq α] : DecidableEq (Except ε α)
  | .ok x, .ok y =>
      if h : x = y then isTrue (h ▸ rfl)
      else isFalse (fun hh => h (Except.ok.inj hh))
  | .error x, .error y =>
      if h : x = y then isTrue (h ▸ rfl)
      else isFalse (fun hh => h (Except.error.inj hh))
  | .ok _, .error _ => isFalse (fun hh => Except.noConfusion hh)
  | .error _, .ok _ => isFalse (fun hh => Except.noConfusion hh)

/-! ## Path sanitizer (`file_io.sanitize_fname`) -/

/-- Python `str.lstrip('./')`: drop leading characters belonging to the set
`\x7b '.', '/' \x7d`; embedded occurrences are untouched. -/
def lstripDotSlash : List Char → List Char
  | [] => []
  | c :: cs => if c = '.' ∨ c = '/' then lstripDotSlash cs else c :: cs

/-- Split a character list at `/` separators (auxiliary accumulator form). -/
def splitSlashAux (cur : List Char) : List Char → List (List Char)
  | [] => [cur.reverse]
  | c :: cs =>
      if c = '/' then cur.reverse :: splitSlashAux [] cs
      else splitSlashAux (c :: cur) cs

/-- The path components pathlib keeps for a relative path string: split at
`/`, dropping empty components and single-dot components (pathlib's parse
of `a//b` and `a/./b` both yields `a, b`; `..` components are KEPT). -/
def pathParts (s : List Char) : List (List Char) :=
  (splitSlashAux [] s).filter (fun p => p ≠ [] ∧ p ≠ ['.'])

/-- Boolean list-of-components ancestry test: `root` is an initial run of
`p`'s components.  Mirrors the purely lexical comparison that
`PurePath.relative_to` performs on `Path.parts`. -/
def underRoot : List (List Char) → List (List Char) → Bool
  | [], _ => true
  | _ :: _, [] => false
  | a :: as, b :: bs => a = b && underRoot as bs

/-- `Path.is_reserved()` on a POSIX host: always `False` (only Windows has
reserved names). -/
def isReservedPath (_ : List (List Char)) : Bool := false

/-- `file_io.sanitize_fname` on a POSIX host with current working
directory `cwd` (the serving root): decode the bytes, `lstrip('./')`,
join the remaining RELATIVE string onto `cwd` (pathlib keeps any embedded
`..` components verbatim), then check `abs_path.relative_to(Path.cwd())` —
a purely lexical prefix test that never fails for a path formed this way —
and `is_reserved()`.  `.error ()` is the `FileNotFoundError` raise. -/
def sanitize_fname (cwd : List (List Char)) (fname : List Char) :
    Except Unit (List (List Char)) :=
  let path := lstripDotSlash fname
  let absPath := cwd ++ pathParts path
  if underRoot cwd absPath then
    if isReservedPath absPath then .error () else .ok absPath
  else .error ()

/-- What the operating system's path resolution does to a component list
(absent symlinks): `..` pops the last component (staying at the root when
already empty), every other component is appended. -/
def resolveParts (parts : List (List Char)) : List (List Char) :=
  parts.foldl (fun acc comp =>
    if comp = ['.', '.'] then acc.dropLast else acc ++ [comp]) []

/-! ## `file_io.FileReader.read_chunk` -/

/-- State of a `FileReader`'s underlying file object: the file bytes, the
read position, the constructor's `chunk_size`, the `finished` flag and
whether `self._f.close()` has run. -/
structure ReaderState where
  contents : List Nat
  pos : Nat
  chunkSize : Nat
  finished : Bool
  closed : Bool
deriving DecidableEq, Repr

/-- `FileReader.read_chunk`: `size = size or self.chunk_size` (so an
argument of `0`/`None` falls back to `chunk_size`); an already-finished
reader returns `b''` untouched; otherwise `data = self._f.read(size)`
returns the next `min(size, remaining)` bytes, and on
`not data or (size > 0 and len(data) < size)` the file is closed and
`finished` set. -/
def read_chunk (s : ReaderState) (size : Nat) : List Nat × ReaderState :=
  let eff := if size = 0 then s.chunkSize else size
  if s.finished then ([], s)
  else
    let data := (s.contents.drop s.pos).take eff
    if data = [] ∨ (0 < eff ∧ data.length < eff) then
      (data, { s with pos := s.pos + data.length, finished := true, closed := true })
    else
      (data, { s with pos := s.pos + data.length })

/-- A fresh `FileReader` on a file holding `contents`. -/
def mkReader (contents : List Nat) (chunkSize : Nat) : ReaderState :=
  ⟨contents, 0, chunkSize, false, false⟩

/-- Apply `read_chunk` once per requested size, collecting the returned
chunks in order. -/
def runReads (s : ReaderState) : List Nat → List (List Nat) × ReaderState
  | [] => ([], s)
  | sz :: rest =>
      let step := read_chunk s sz
      let tail := runReads step.2 rest
      (step.1 :: tail.1, tail.2)

/-! ## `file_io.FileReader.hijack_fname` and the `FileReader` constructor -/

/-- One DHCP lease as consumed by `hijack_fname`; `circuitId` is the
hex-decoded `agent.circuit-id` option (decoding done by the external
`dhcp_leases`/`binascii` libraries, taken here as given data). -/
structure Lease where
  ip : List Char
  circuitId : List Char
deriving DecidableEq, Repr

/-- `FileReader.hijack_fname`: loops over the leases; for each lease, when
the requester's IP equals the literal `'127.0.0.1'` it returns the first
lease's circuit id with `.cfg` appended (the `lease.ip` comparison is
commented out in the source); when the loop finishes without returning —
any non-localhost address, or an empty lease list — Python returns
`None`.  Note the client-requested filename is never consulted. -/
def hijack_fname (addr : List Char) : List Lease → Option (List Char)
  | [] => none
  | l :: ls =>
      if addr = "127.0.0.1".toList then some (l.circuitId ++ ".cfg".toList)
      else hijack_fname addr ls

/-- Failure modes of the `FileReader` constructor before the file is
opened: `os.fsdecode(None)` inside `sanitize_fname` raises `TypeError`
when `hijack_fname` returned `None`; the sanitizer itself raises
`FileNotFoundError`. -/
inductive ReaderInitError
  | typeError
  | fileNotFound
deriving DecidableEq, Repr

/-- `FileReader.__init__` up to the choice of the path that will be
opened: the requested `fname` is unconditionally replaced by
`hijack_fname`'s result (which ignores it), and that result is sanitized;
`self.fname = sanitize_fname(new_fname)`. -/
def fileReaderPath (fname : List Char) (addr : List Char) (leases : List Lease)
    (cwd : List (List Char)) : Except ReaderInitError (List (List Char)) :=
  let _ := fname
  match hijack_fname addr leases with
  | none => .error .typeError
  | some nf =>
      match sanitize_fname cwd nf with
      | .error _ => .error .fileNotFound
      | .ok p => .ok p

/-! ## Packets, observable operations and events of the transfer engines -/

/-- A peer address `(ip, port)`; the port is the peer's TID. -/
abbrev Addr := List Char × Nat

/-- Modelled from the spec: the repository imports its packet codec from
the missing `tftp_packet` module; packets are modelled as the tagged
variant of spec section 3 (DATA, ACK, ERROR with code and message, OACK
with echoed options).  RRQ/WRQ request packets are handled before the
engines start and are not needed here. -/
inductive Packet
  | data (block : Nat) (payload : List Nat)
  | ack (block : Nat)
  | err (code : Nat) (msg : List Char)
  | oack (opts : List (List Char × List Char))
deriving DecidableEq, Repr

/-- `TFTPPacketFactory.err_unknown_tid()`: ERROR code 5. -/
def errUnknownTid : Packet := .err 5 "Unknown transfer id".toList

/-- The observable side effects of one engine callback, in program
order: datagrams handed to `transport.sendto`, cancellation/scheduling of
the retransmit timer (`self.retransmit`) and the inactivity timer
(`self.h_timeout`), and `transport.close()`. -/
inductive Op
  | send (dst : Addr) (pkt : Packet)
  | cancelRetransmit
  | schedRetransmit (pkt : Packet)
  | cancelTimeout
  | schedTimeout
  | closeTransport
deriving DecidableEq, Repr

/-- The three kinds of events delivered to a live engine: an incoming
datagram (already decoded — the codec lives in the missing `tftp_packet`
module), the retransmit timer firing, and the inactivity timer firing. -/
inductive Event
  | datagram (src : Addr) (pkt : Packet)
  | retransmitFire
  | inactivityFire
deriving DecidableEq, Repr

/-! ## RRQ engine (`protocols.RRQProtocol`) -/

/-- State of a live `RRQProtocol` engine: the established peer, the
negotiated `blksize`, the block `counter` (the block number of the last
DATA sent, `0` right after an OACK), the unread remainder of the file
iterator (`get_file_reader` chunks), the `finished` flag, the pending
retransmit timer's packet (`none` when cancelled), whether the inactivity
timer is armed, and whether `transport.close()` has run. -/
structure RRQState where
  peer : Addr
  blksize : Nat
  counter : Nat
  chunks : List (List Nat)
  finished : Bool
  lastSent : Option Packet
  timeoutArmed : Bool
  closed : Bool
deriving DecidableEq, Repr

/-- Ops of `conn_timeout_reset()`: `conn_reset()` cancels the retransmit
timer (if one is pending) and the inactivity timer, then the inactivity
timer is re-armed. -/
def connTimeoutResetOps (lastSent : Option Packet) : List Op :=
  (if lastSent.isSome then [Op.cancelRetransmit] else []) ++
    [Op.cancelTimeout, Op.schedTimeout]

/-- `RRQProtocol.datagram_received` plus the two timer callbacks, as one
step function.  A closed transport delivers no further events (steps on a
closed state are identity).  Sequence checking is modelled from the spec
(missing `tftp_packet` module): a progress ACK carries block number equal
to `self.counter`.  Control flow of `datagram_received`: wrong source
port → `is_correct_tid` sends ERROR 5 to the offender and nothing else
happens; valid ACK → `conn_timeout_reset()`, `counter += 1`,
`next_datagram()` pulls the next chunk and `reply_to_client` sends it
(and `finished` is set when the chunk is shorter than `blksize`); an
exhausted iterator raises `StopIteration`, upon which a terminal empty
DATA is sent when `finished` is still false, and `transport.close()` runs
in the same callback either way. -/
def rrqStep (s : RRQState) (e : Event) : RRQState × List Op :=
  if s.closed then (s, [])
  else
    match e with
    | .retransmitFire =>
        match s.lastSent with
        | some p => (s, [Op.send s.peer p, Op.schedRetransmit p])
        | none => (s, [])
    | .inactivityFire =>
        if s.timeoutArmed then
          ({ s with lastSent := none, closed := true },
            (if s.lastSent.isSome then [Op.cancelRetransmit] else []) ++
              [Op.closeTransport])
        else (s, [])
    | .datagram src pkt =>
        if src.2 ≠ s.peer.2 then (s, [Op.send src errUnknownTid])
        else
          match pkt with
          | .ack b =>
              if b = s.counter then
                let resetOps := connTimeoutResetOps s.lastSent
                let c := s.counter + 1
                match s.chunks with
                | chunk :: rest =>
                    let dat := Packet.data c chunk
                    ({ s with
                        counter := c
                        chunks := rest
                        finished := if chunk.length < s.blksize then true else s.finished
                        lastSent := some dat },
                      resetOps ++ [Op.send s.peer dat, Op.schedRetransmit dat])
                | [] =>
                    if s.finished then
                      ({ s with counter := c, closed := true },
                        resetOps ++ [Op.closeTransport])
                    else
                      let dat := Packet.data c []
                      ({ s with counter := c, lastSent := some dat, closed := true },
                        resetOps ++ [Op.send s.peer dat, Op.schedRetransmit dat,
                          Op.closeTransport])
              else (s, [])
          | _ => (s, [])

/-! ## WRQ engine (`protocols.WRQProtocol`) -/

/-- State of a live `WRQProtocol` engine: peer, `blksize`, block `counter`
(the last block number ACKed), the bytes written so far by the writer
generator, whether the generator's file is still open, the pending
retransmit packet, inactivity-timer flag, and transport closure. -/
structure WRQState where
  peer : Addr
  blksize : Nat
  counter : Nat
  written : List Nat
  writerOpen : Bool
  lastSent : Option Packet
  timeoutArmed : Bool
  closed : Bool
deriving DecidableEq, Repr

/-- `WRQProtocol.datagram_received` plus timer callbacks.  A valid DATA
(correct source port, block number `self.counter + 1`) triggers
`conn_timeout_reset()`, `counter += 1`, `reply_to_client(ACK(counter))`,
then `file_iterator.send(data)` writes the payload; a payload shorter
than `blksize` makes the writer generator raise `StopIteration` (closing
its file), upon which `retransmit_reset()` cancels the just-scheduled
retransmit and `transport.close()` runs.  Any other datagram from the
correct port — wrong block number, duplicate DATA, ACK, ERROR — falls to
the `else` branch, which only logs. -/
def wrqStep (s : WRQState) (e : Event) : WRQState × List Op :=
  if s.closed then (s, [])
  else
    match e with
    | .retransmitFire =>
        match s.lastSent with
        | some p => (s, [Op.send s.peer p, Op.schedRetransmit p])
        | none => (s, [])
    | .inactivityFire =>
        if s.timeoutArmed then
          ({ s with lastSent := none, closed := true },
            (if s.lastSent.isSome then [Op.cancelRetransmit] else []) ++
              [Op.closeTransport])
        else (s, [])
    | .datagram src pkt =>
        if src.2 ≠ s.peer.2 then (s, [Op.send src errUnknownTid])
        else
          match pkt with
          | .data b payload =>
              if b = s.counter + 1 then
                let resetOps := connTimeoutResetOps s.lastSent
                let c := s.counter + 1
                let ackP := Packet.ack c
                if payload.length < s.blksize then
                  ({ s with
                      counter := c
                      written := s.written ++ payload
                      writerOpen := false
                      lastSent := none
                      closed := true },
                    resetOps ++ [Op.send s.peer ackP, Op.schedRetransmit ackP,
                      Op.cancelRetransmit, Op.closeTransport])
                else
                  ({ s with
                      counter := c
                      written := s.written ++ payload
                      lastSent := some ackP },
                    resetOps ++ [Op.send s.peer ackP, Op.schedRetransmit ackP])
              else (s, [])
          | _ => (s, [])

/-! ## Engine initialization (`BaseTFTPProtocol.handle_initialization`) -/

/-- `RRQProtocol.get_file_reader`: `iter(lambda: f.read(blksize), b'')`
pulled eagerly into the list of chunks it will yield — blocks of exactly
`B` bytes except a final shorter one; a read of `0` bytes (empty file, or
`B = 0`) hits the `b''` sentinel at once, so no chunk is yielded and no
terminal empty chunk exists.  Fuel-structured so it computes by kernel
reduction. -/
def chunksOfAux (fuel : Nat) (B : Nat) (bs : List Nat) : List (List Nat) :=
  match fuel with
  | 0 => []
  | fuel + 1 =>
      if bs = [] ∨ B = 0 then []
      else bs.take B :: chunksOfAux fuel B (bs.drop B)

/-- The chunk sequence of `get_file_reader` for file bytes `bs`. -/
def chunksOf (B : Nat) (bs : List Nat) : List (List Nat) :=
  chunksOfAux bs.length B bs

/-- Outcome of `handle_initialization` for a request: the first packet
sent, the resulting block counter, whether the engine aborted (sent an
error and closed), and — WRQ only — whether the target file was created. -/
structure WrqInit where
  sent : Packet
  counter : Nat
  closed : Bool
  created : Bool
deriving DecidableEq, Repr

/-- `handle_initialization` for a WRQ, given whether the target file
already exists and the accepted options `ropts` (computed by the missing
`tftp_parsing` mixin; quantified here).  `initialize_transfer` runs
FIRST: `get_file_writer` primes the writer generator with `send(None)`,
which executes `open(fpath, 'xb')` immediately, so an existing target
raises `FileExistsError` before any OACK decision; the handler catches it
and sends `err_file_exists()` (ERROR 6) and `handle_err_pkt` closes the
transport, the target file untouched.  Otherwise a non-empty `ropts`
yields an OACK with `counter = 0`, and empty `ropts` yields
`next_datagram()` = ACK(0). -/
def wrqInit (targetExists : Bool) (ropts : List (List Char × List Char)) : WrqInit :=
  if targetExists then ⟨.err 6 "File already exists".toList, 0, true, false⟩
  else if ropts ≠ [] then ⟨.oack ropts, 0, false, true⟩
  else ⟨.ack 0, 0, false, true⟩

/-- Outcome of `handle_initialization` for an RRQ: `none` models an
unhandled exception escaping the handler (no packet is sent at all),
otherwise the first packet, counter and abort flag. -/
structure RrqInit where
  sent : Packet
  counter : Nat
  closed : Bool
deriving DecidableEq, Repr

/-- `handle_initialization` for an RRQ on a file that holds `contents`
when it exists.  `get_file_reader` builds its generator LAZILY (no
`send(None)`), so `initialize_transfer` never touches the file; with a
non-empty `ropts` the OACK is sent with `counter = 0` and the file is
still untouched.  With empty `ropts`, `next_datagram()` starts the
generator: a missing file raises `FileNotFoundError` there, which the
handler catches (ERROR 1, abort); an empty chunk sequence raises
`StopIteration`, which `handle_initialization` does NOT catch — the
exception escapes and no packet is sent (`none`). -/
def rrqInit (fileExists : Bool) (contents : List Nat) (B : Nat)
    (ropts : List (List Char × List Char)) : Option RrqInit :=
  if ropts ≠ [] then some ⟨.oack ropts, 0, false⟩
  else if ¬fileExists then some ⟨.err 1 "File not found".toList, 1, true⟩
  else
    match chunksOf B contents with
    | [] => none
    | c :: _ => some ⟨.data 1 c, 1, false⟩

/-! ## A complete RRQ transfer against a prompt, lossless client -/

/-- A fixed peer address for concrete transfer runs. -/
def peer0 : Addr := ("10.0.0.1".toList, 50618)

/-- The engine state right after a successful optionless RRQ
initialization sent `DATA(1, c)`.  Note `handle_initialization` does NOT
update `finished`, whatever the first chunk's length — only
`datagram_received` does. -/
def rrqStart (contents : List Nat) (B : Nat) : Option (RRQState × List Op) :=
  match chunksOf B contents with
  | [] => none
  | c :: rest =>
      some (⟨peer0, B, 1, rest, false, some (.data 1 c), true, false⟩,
        [Op.send peer0 (.data 1 c), Op.schedRetransmit (.data 1 c), Op.schedTimeout])

/-- Drive a live RRQ engine with a client that immediately ACKs every
DATA packet (ACK of the current counter), collecting all ops until the
engine closes (or fuel runs out). -/
def rrqDrive (fuel : Nat) (s : RRQState) : List Op :=
  match fuel with
  | 0 => []
  | fuel + 1 =>
      if s.closed then []
      else
        let step := rrqStep s (.datagram s.peer (.ack s.counter))
        step.2 ++ rrqDrive fuel step.1

/-- All ops of a complete optionless RRQ transfer of `contents` with
block size `B` against a lossless, prompt client; `none` when
initialization crashes (see `rrqInit`). -/
def rrqTransferOps (contents : List Nat) (B : Nat) : Option (List Op) :=
  match rrqStart contents B with
  | none => none
  | some (s, ops) => some (ops ++ rrqDrive (s.chunks.length + 2) s)

/-- Number of DATA packets among the sends of an op list. -/
def countDataSends : List Op → Nat
  | [] => 0
  | Op.send _ (Packet.data _ _) :: rest => countDataSends rest + 1
  | _ :: rest => countDataSends rest

/-! ## Claim C1 — path sanitizer confinement -/

/-- C1: evaluation of the sanitizer at the failing input.  The claim says
every sanitized path is a descendant of the serving root after
resolution.  The code only strips LEADING `.`/`/` characters and then
performs a purely lexical `relative_to` prefix test, so a filename with
an embedded `..` component, here `a/../../../etc/passwd` under root
`/srv/tftp`, is returned unchanged and resolves to `/etc/passwd`, above
the root — contradicting the sanitizer's own docstring ("Ensures that
fname is a path under the current working directory"). -/
theorem c1_sanitize_path_escape :
    sanitize_fname ["srv".toList, "tftp".toList] "a/../../../etc/passwd".toList
      = .ok ["srv".toList, "tftp".toList, "a".toList, "..".toList, "..".toList,
          "..".toList, "etc".toList, "passwd".toList]
    ∧ resolveParts ["srv".toList, "tftp".toList, "a".toList, "..".toList, "..".toList,
          "..".toList, "etc".toList, "passwd".toList]
      = ["etc".toList, "passwd".toList]
    ∧ underRoot ["srv".toList, "tftp".toList] ["etc".toList, "passwd".toList] = false := by
  decide

/-! ## Claim C2 — number of DATA packets per read transfer -/

/-- C2: evaluation of the RRQ engine at the failing inputs.  The claim
says a file of size `S` served with block size `B` yields exactly
`S / B + 1` DATA packets, the last of size `S % B` (or empty when `B`
divides `S`).  Because `handle_initialization` never updates `finished`
for the first DATA, a 100-byte file at `B = 512` produces TWO DATA
packets — the 100-byte `DATA(1)` and then a spurious empty `DATA(2)` —
where the formula demands one; and the empty file makes `next_datagram`
raise `StopIteration` out of `handle_initialization`, so no DATA packet
is sent at all where the formula demands one empty `DATA(1)`. -/
theorem c2_data_count_eval :
    (rrqTransferOps (List.replicate 100 7) 512).map countDataSends = some 2
    ∧ 100 / 512 + 1 = 1
    ∧ rrqTransferOps [] 512 = none := by
  decide

/-! ## Claim C7 — exclusive creation on WRQ -/

/-- C7: for every WRQ whose target already exists, whatever options were
requested, exclusive creation (`open(fpath, 'xb')`, run eagerly when the
writer generator is primed) fails with `FileExistsError`; the engine's
only packet is ERROR 6, the transport is closed and the existing file is
not modified (`created = false`). -/
theorem c7_file_exists :
    ∀ ropts : List (List Char × List Char),
      (wrqInit true ropts).sent = Packet.err 6 "File already exists".toList
      ∧ (wrqInit true ropts).closed = true
      ∧ (wrqInit true ropts).created = false := by
  intro ropts
  simp [wrqInit]

/-! ## Claim C8 — option negotiation and the first packet -/

/-- C8 counterexample: the claim quantifies over EVERY incoming request,
but a WRQ for an existing target with a non-empty accepted option set
sends ERROR 6 as its first packet, not an OACK: `initialize_transfer`
(and its exclusive `open`) runs before the OACK branch of
`handle_initialization`. -/
theorem c8_counterexample :
    (wrqInit true [("blksize".toList, "1024".toList)]).sent
      = Packet.err 6 "File already exists".toList
    ∧ (wrqInit true [("blksize".toList, "1024".toList)]).sent
      ≠ Packet.oack [("blksize".toList, "1024".toList)] := by
  decide

/-- C8 amended: for requests whose file initialization does not fail —
any RRQ (the read generator is lazy, so even a missing or empty file is
not touched before the first packet), and a WRQ whose target does not
yet exist — a non-empty accepted option set makes the first packet an
OACK echoing those options with the block counter initialised to 0;
with an empty accepted option set no OACK is sent and the engine
proceeds directly with `DATA(1)` carrying the first chunk (RRQ, when the
file exists and yields at least one chunk) or `ACK(0)` (WRQ). -/
theorem c8_negotiation :
    (∀ (ex : Bool) (contents : List Nat) (B : Nat) (r : List (List Char × List Char)),
      r ≠ [] → rrqInit ex contents B r = some ⟨.oack r, 0, false⟩)
    ∧ (∀ r : List (List Char × List Char), r ≠ [] →
        wrqInit false r = ⟨.oack r, 0, false, true⟩)
    ∧ (∀ (contents : List Nat) (B : Nat) (c : List Nat) (rest : List (List Nat)),
        chunksOf B contents = c :: rest →
        rrqInit true contents B [] = some ⟨.data 1 c, 1, false⟩)
    ∧ wrqInit false [] = ⟨.ack 0, 0, false, true⟩ := by
  refine ⟨?_, ?_, ?_, ?_⟩
  · intro ex contents B r hr
    simp [rrqInit, hr]
  · intro r hr
    simp [wrqInit, hr]
  · intro contents B c rest hch
    simp [rrqInit, hch]
  · simp [wrqInit]

/-- C8 witness: concrete instantiations discharging each hypothesis of
`c8_negotiation`. -/
theorem c8_negotiation_witness :
    rrqInit true [7] 512 [("blksize".toList, "1024".toList)]
      = some ⟨.oack [("blksize".toList, "1024".toList)], 0, false⟩
    ∧ wrqInit false [("timeout".toList, "3".toList)]
      = ⟨.oack [("timeout".toList, "3".toList)], 0, false, true⟩
    ∧ rrqInit true [7] 512 [] = some ⟨.data 1 [7], 1, false⟩ :=
  ⟨c8_negotiation.1 true [7] 512 _ (by decide),
   c8_negotiation.2.1 _ (by decide),
   c8_negotiation.2.2.1 [7] 512 [7] [] (by decide)⟩

/-! ## Claim C10 — the DHCP-lease filename hijack -/

/-- C10: the `FileReader` constructor derives the path it opens solely
from `hijack_fname` — the client-requested filename is ignored (the
result of `fileReaderPath` does not depend on it); `hijack_fname`
returns `None` for every peer IP other than `'127.0.0.1'` and for an
empty lease list, and in that case `sanitize_fname(None)` raises
(`os.fsdecode(None)` is a `TypeError`), so constructing the reader — and
hence serving the read transfer — fails. -/
theorem c10_hijack :
    (∀ (addr : List Char) (leases : List Lease), addr ≠ "127.0.0.1".toList →
      hijack_fname addr leases = none)
    ∧ (∀ addr : List Char, hijack_fname addr [] = none)
    ∧ (∀ (fn addr : List Char) (leases : List Lease) (cwd : List (List Char)),
        hijack_fname addr leases = none →
        fileReaderPath fn addr leases cwd = .error .typeError)
    ∧ (∀ (fn₁ fn₂ addr : List Char) (leases : List Lease) (cwd : List (List Char)),
        fileReaderPath fn₁ addr leases cwd = fileReaderPath fn₂ addr leases cwd) := by
  refine ⟨?_, ?_, ?_, ?_⟩
  · intro addr leases haddr
    induction leases with
    | nil => rfl
    | cons l ls ih =>
        rw [hijack_fname, if_neg haddr]
        exact ih
  · intro addr
    rfl
  · intro fn addr leases cwd hnone
    simp [fileReaderPath, hnone]
  · intro fn₁ fn₂ addr leases cwd
    rfl

/-- C10 witness: a non-localhost peer with a live lease list gets no
filename, and the constructor fails with the `TypeError` regardless of
the requested name. -/
theorem c10_hijack_witness :
    hijack_fname "10.0.0.5".toList [⟨"10.0.0.5".toList, "ab01".toList⟩] = none
    ∧ fileReaderPath "LICENSE".toList "10.0.0.5".toList
        [⟨"10.0.0.5".toList, "ab01".toList⟩] [] = .error .typeError
    ∧ fileReaderPath "LICENSE".toList "10.0.0.5".toList
        [⟨"10.0.0.5".toList, "ab01".toList⟩] []
      = fileReaderPath "other".toList "10.0.0.5".toList
        [⟨"10.0.0.5".toList, "ab01".toList⟩] [] :=
  ⟨c10_hijack.1 _ _ (by decide),
   c10_hijack.2.2.1 _ _ _ _ (c10_hijack.1 _ _ (by decide)),
   c10_hijack.2.2.2 _ _ _ _ _⟩

/-! ## Claim C9 — `read_chunk` completion behaviour -/

/-- A finished reader ignores the read request entirely. -/
lemma read_chunk_of_finished (s : ReaderState) (size : Nat) (h : s.finished = true) :
    read_chunk s size = ([], s) := by
  simp [read_chunk, h]

/-- A run over a finished reader only produces empty chunks and leaves the
state untouched. -/
lemma runReads_of_finished (sizes : List Nat) (s : ReaderState) (h : s.finished = true) :
    runReads s sizes = (List.replicate sizes.length [], s) := by
  induction sizes with
  | nil => simp [runReads]
  | cons sz rest ih =>
      simp [runReads, read_chunk_of_finished s sz h, ih, List.replicate_succ]

/-- Flattening replicated empty chunks gives nothing. -/
lemma flatten_replicate_nil (n : Nat) : (List.replicate n ([] : List Nat)).flatten = [] := by
  induction n with
  | zero => rfl
  | succ n ih => simp [List.replicate_succ, ih]

/-- Core accounting of a read run: starting unfinished at position `pos`,
positive read sizes that drive the reader to `finished` return exactly
the remaining file bytes. -/
lemma runReads_flatten (sizes : List Nat) : ∀ s : ReaderState,
    (∀ x ∈ sizes, 0 < x) → s.finished = false →
    (runReads s sizes).2.finished = true →
    (runReads s sizes).1.flatten = s.contents.drop s.pos := by
  induction sizes with
  | nil =>
      intro s _ hnf hfin
      simp only [runReads] at hfin
      rw [hnf] at hfin
      cases hfin
  | cons sz rest ih =>
      intro s hpos hnf hfin
      obtain ⟨cts, pos, csz, fin, cls⟩ := s
      simp only at hnf
      subst hnf
      have hsz : 0 < sz := hpos sz (by simp)
      have hsz0 : sz ≠ 0 := Nat.pos_iff_ne_zero.mp hsz
      by_cases hc : (List.drop pos cts).take sz = [] ∨
          (0 < sz ∧ ((List.drop pos cts).take sz).length < sz)
      · have hstep : read_chunk ⟨cts, pos, csz, false, cls⟩ sz =
            ((List.drop pos cts).take sz,
              ⟨cts, pos + ((List.drop pos cts).take sz).length, csz, true, true⟩) := by
          simp only [read_chunk, hsz0, if_false, ite_false]
          rw [if_neg (by simp), if_pos hc]
        have hdX : (List.drop pos cts).take sz = List.drop pos cts := by
          rcases hc with hnil | ⟨-, hlen⟩
          · rcases List.take_eq_nil_iff.mp hnil with h0 | hX
            · exact absurd h0 hsz0
            · rw [hX, List.take_nil]
          · refine List.take_of_length_le ?_
            rw [List.length_take] at hlen
            omega
        simp only [runReads]
        rw [hstep]
        dsimp only
        rw [runReads_of_finished rest _ rfl]
        dsimp only
        rw [List.flatten_cons, flatten_replicate_nil, List.append_nil, hdX]
      · have hstep : read_chunk ⟨cts, pos, csz, false, cls⟩ sz =
            ((List.drop pos cts).take sz,
              ⟨cts, pos + ((List.drop pos cts).take sz).length, csz, false, cls⟩) := by
          simp only [read_chunk, hsz0, if_false, ite_false]
          rw [if_neg (by simp), if_neg hc]
        push_neg at hc
        obtain ⟨hne, hlen⟩ := hc
        have hdlen : ((List.drop pos cts).take sz).length = sz := by
          have := hlen hsz
          rw [List.length_take] at this ⊢
          omega
        simp only [runReads] at hfin ⊢
        rw [hstep] at hfin ⊢
        dsimp only at hfin ⊢
        have hrec := ih ⟨cts, pos + ((List.drop pos cts).take sz).length, csz, false, cls⟩
          (fun x hx => hpos x (by simp [hx])) rfl hfin
        dsimp only at hrec
        rw [List.flatten_cons, hrec]
        have hdrop : List.drop (pos + ((List.drop pos cts).take sz).length) cts
            = (List.drop pos cts).drop sz := by
          rw [List.drop_drop, hdlen, Nat.add_comm]
        rw [hdrop, List.take_append_drop]

/-- C9: the three parts of the claim.
First, a finished reader returns the empty byte string and changes no
state, so `read_chunk` is idempotent after completion.
Second, whenever a call on a live reader returns fewer bytes than the
effective requested size (`size or self.chunk_size`), the `finished` flag
is set and the file is closed.
Third, any sequence of positive-size reads that drives a fresh reader to
`finished` returns chunks whose concatenation is exactly the file's
contents. -/
theorem c9_read_chunk :
    (∀ (s : ReaderState) (size : Nat), s.finished = true → read_chunk s size = ([], s))
    ∧ (∀ (s : ReaderState) (size : Nat), s.finished = false →
        (read_chunk s size).1.length < (if size = 0 then s.chunkSize else size) →
        (read_chunk s size).2.finished = true ∧ (read_chunk s size).2.closed = true)
    ∧ (∀ (contents : List Nat) (c : Nat) (sizes : List Nat),
        (∀ x ∈ sizes, 0 < x) →
        (runReads (mkReader contents c) sizes).2.finished = true →
        (runReads (mkReader contents c) sizes).1.flatten = contents) := by
  refine ⟨read_chunk_of_finished, ?_, ?_⟩
  · intro s size hnf hlt
    simp only [read_chunk, hnf, Bool.false_eq_true, if_false, ite_false] at hlt ⊢
    by_cases hc : (s.contents.drop s.pos).take (if size = 0 then s.chunkSize else size) = [] ∨
        (0 < (if size = 0 then s.chunkSize else size) ∧
          ((s.contents.drop s.pos).take (if size = 0 then s.chunkSize else size)).length <
            (if size = 0 then s.chunkSize else size))
    · rw [if_pos hc]
      exact ⟨rfl, rfl⟩
    · rw [if_neg hc] at hlt
      push_neg at hc
      obtain ⟨-, hlen⟩ := hc
      have h0 : 0 < (if size = 0 then s.chunkSize else size) :=
        Nat.lt_of_le_of_lt (Nat.zero_le _) hlt
      exact absurd hlt (Nat.not_lt.mpr (hlen h0))
  · intro contents c sizes hpos hfin
    have := runReads_flatten sizes (mkReader contents c) hpos rfl hfin
    simpa [mkReader] using this

/-- C9 witness: concrete instantiations discharging each hypothesis of
`c9_read_chunk`: an already finished reader is inert; a 1-byte file read
with size 2 comes back short, finishing and closing the reader; reads of
size 2 over a 3-byte file return the whole file. -/
theorem c9_read_chunk_witness :
    read_chunk ⟨[1, 2, 3], 3, 2, true, true⟩ 2 = ([], ⟨[1, 2, 3], 3, 2, true, true⟩)
    ∧ ((read_chunk ⟨[9], 0, 2, false, false⟩ 2).2.finished = true
        ∧ (read_chunk ⟨[9], 0, 2, false, false⟩ 2).2.closed = true)
    ∧ (runReads (mkReader [1, 2, 3] 2) [2, 2]).1.flatten = [1, 2, 3] :=
  ⟨c9_read_chunk.1 _ 2 rfl,
   c9_read_chunk.2.1 ⟨[9], 0, 2, false, false⟩ 2 rfl (by decide),
   c9_read_chunk.2.2 [1, 2, 3] 2 [2, 2] (by decide) (by decide)⟩

/-! ## Claims C3–C6 — engine step properties -/

/-- A closed transport delivers no further events to an RRQ engine. -/
lemma rrqStep_of_closed (s : RRQState) (e : Event) (h : s.closed = true) :
    rrqStep s e = (s, []) := by
  simp [rrqStep, h]

/-- A closed transport delivers no further events to a WRQ engine. -/
lemma wrqStep_of_closed (s : WRQState) (e : Event) (h : s.closed = true) :
    wrqStep s e = (s, []) := by
  simp [wrqStep, h]

/-- Closure characterization for RRQ datagram steps: the engine's
transport gets closed by an incoming datagram exactly when it is a
correct-TID ACK of the current counter while the file iterator is
exhausted. -/
lemma rrqStep_datagram_closed (s : RRQState) (src : Addr) (pkt : Packet)
    (h : s.closed = false) :
    ((rrqStep s (.datagram src pkt)).1.closed = true ↔
      src.2 = s.peer.2 ∧ pkt = .ack s.counter ∧ s.chunks = []) := by
  by_cases hp : src.2 = s.peer.2
  · cases pkt with
    | ack b =>
        by_cases hb : b = s.counter
        · subst hb
          cases hch : s.chunks with
          | nil =>
              cases hf : s.finished <;> simp [rrqStep, h, hp, hch, hf]
          | cons c rest => simp [rrqStep, h, hp, hch]
        · simp [rrqStep, h, hp, hb]
    | data b p => simp [rrqStep, h, hp]
    | err c m => simp [rrqStep, h, hp]
    | oack o => simp [rrqStep, h, hp]
  · simp [rrqStep, h, hp]

/-- Closure characterization for WRQ datagram steps: the transport gets
closed exactly by a correct-TID DATA for the next block whose payload is
shorter than the negotiated block size. -/
lemma wrqStep_datagram_closed (s : WRQState) (src : Addr) (pkt : Packet)
    (h : s.closed = false) :
    ((wrqStep s (.datagram src pkt)).1.closed = true ↔
      src.2 = s.peer.2 ∧
        ∃ payload, pkt = .data (s.counter + 1) payload ∧ payload.length < s.blksize) := by
  by_cases hp : src.2 = s.peer.2
  · cases pkt with
    | data b p =>
        by_cases hb : b = s.counter + 1
        · subst hb
          by_cases hl : p.length < s.blksize <;> simp [wrqStep, h, hp, hl]
        · simp [wrqStep, h, hp, hb]
    | ack b => simp [wrqStep, h, hp]
    | err c m => simp [wrqStep, h, hp]
    | oack o => simp [wrqStep, h, hp]
  · simp [wrqStep, h, hp]

/-- C3 counterexample: an RRQ engine whose iterator is exhausted but whose
`finished` flag is still false (the file size was an exact multiple of
`blksize`, or the whole file fit in the first DATA) receives the ACK of
its last full DATA: in that single step it sends the terminal empty
short DATA AND closes the transport — so the transfer terminates without
the final short DATA's ACK ever being received, contradicting the
claim's "only after the final DATA's ACK has been received (RRQ side),
never before". -/
theorem c3_counterexample :
    rrqStep ⟨("10.0.0.9".toList, 40000), 512, 2, [], false, some (Packet.data 2 [1]), true, false⟩
        (.datagram ("10.0.0.9".toList, 40000) (.ack 2))
      = (⟨("10.0.0.9".toList, 40000), 512, 3, [], false, some (Packet.data 3 []), true, true⟩,
        [Op.cancelRetransmit, Op.cancelTimeout, Op.schedTimeout,
          Op.send ("10.0.0.9".toList, 40000) (Packet.data 3 []),
          Op.schedRetransmit (Packet.data 3 []), Op.closeTransport]) := by
  decide

/-- C3 amended: a transfer terminates at most once (a closed engine takes
no further steps), and only by: the inactivity timeout firing; on the
RRQ side, a correct-TID ACK of the current counter arriving with the
file iterator exhausted — after a short final chunk (`finished` set)
nothing further is sent, so this is the final short DATA's ACK, but when
`finished` is still false (exact-multiple or single-chunk files) the
terminal empty DATA is sent and the transport closed in that same step,
without awaiting its ACK; on the WRQ side, a correct-TID DATA of the
next block with a short payload, whose ACK is sent in the same step
before the engine closes.  Received ERROR packets do not terminate a
transfer, and the retransmit timer never does. -/
theorem c3_termination :
    (∀ (s : RRQState) (e : Event), s.closed = true → rrqStep s e = (s, []))
    ∧ (∀ (s : WRQState) (e : Event), s.closed = true → wrqStep s e = (s, []))
    ∧ (∀ s : RRQState, s.closed = false →
        (rrqStep s .inactivityFire).1.closed = s.timeoutArmed
        ∧ (rrqStep s .retransmitFire).1.closed = false)
    ∧ (∀ s : WRQState, s.closed = false →
        (wrqStep s .inactivityFire).1.closed = s.timeoutArmed
        ∧ (wrqStep s .retransmitFire).1.closed = false)
    ∧ (∀ (s : RRQState) (src : Addr) (pkt : Packet), s.closed = false →
        ((rrqStep s (.datagram src pkt)).1.closed = true ↔
          src.2 = s.peer.2 ∧ pkt = .ack s.counter ∧ s.chunks = []))
    ∧ (∀ (s : RRQState) (src : Addr), s.closed = false → src.2 = s.peer.2 →
        s.chunks = [] → s.finished = true →
        (rrqStep s (.datagram src (.ack s.counter))).2 =
          connTimeoutResetOps s.lastSent ++ [Op.closeTransport])
    ∧ (∀ (s : RRQState) (src : Addr), s.closed = false → src.2 = s.peer.2 →
        s.chunks = [] → s.finished = false →
        (rrqStep s (.datagram src (.ack s.counter))).2 =
          connTimeoutResetOps s.lastSent ++
            [Op.send s.peer (.data (s.counter + 1) []),
              Op.schedRetransmit (.data (s.counter + 1) []), Op.closeTransport])
    ∧ (∀ (s : WRQState) (src : Addr) (pkt : Packet), s.closed = false →
        ((wrqStep s (.datagram src pkt)).1.closed = true ↔
          src.2 = s.peer.2 ∧
            ∃ payload, pkt = .data (s.counter + 1) payload ∧ payload.length < s.blksize))
    ∧ (∀ (s : WRQState) (src : Addr) (payload : List Nat), s.closed = false →
        src.2 = s.peer.2 → payload.length < s.blksize →
        Op.send s.peer (.ack (s.counter + 1)) ∈
          (wrqStep s (.datagram src (.data (s.counter + 1) payload))).2) := by
  refine ⟨rrqStep_of_closed, wrqStep_of_closed, ?_, ?_, rrqStep_datagram_closed,
    ?_, ?_, wrqStep_datagram_closed, ?_⟩
  · intro s h
    refine ⟨?_, ?_⟩
    · cases ht : s.timeoutArmed <;> simp [rrqStep, h, ht]
    · cases hls : s.lastSent <;> simp [rrqStep, h, hls]
  · intro s h
    refine ⟨?_, ?_⟩
    · cases ht : s.timeoutArmed <;> simp [wrqStep, h, ht]
    · cases hls : s.lastSent <;> simp [wrqStep, h, hls]
  · intro s src h hp hch hf
    simp [rrqStep, h, hp, hch, hf, connTimeoutResetOps]
  · intro s src h hp hch hf
    simp [rrqStep, h, hp, hch, hf, connTimeoutResetOps]
  · intro s src payload h hp hl
    simp [wrqStep, h, hp, hl, connTimeoutResetOps]

/-- C3 witness: concrete instantiations of `c3_termination` — a closed
RRQ engine ignores a timer event; a WRQ engine closes on the final short
DATA and its ACK is among the ops of that same step. -/
theorem c3_termination_witness :
    rrqStep ⟨("10.0.0.9".toList, 40000), 512, 5, [], true, none, true, true⟩ .retransmitFire
      = (⟨("10.0.0.9".toList, 40000), 512, 5, [], true, none, true, true⟩, [])
    ∧ (wrqStep ⟨("10.0.0.9".toList, 40000), 512, 1, [7], true, some (.ack 1), true, false⟩
        (.datagram ("10.0.0.9".toList, 40000) (.data 2 [9]))).1.closed = true
    ∧ Op.send ("10.0.0.9".toList, 40000) (Packet.ack 2) ∈
        (wrqStep ⟨("10.0.0.9".toList, 40000), 512, 1, [7], true, some (.ack 1), true, false⟩
          (.datagram ("10.0.0.9".toList, 40000) (.data 2 [9]))).2 :=
  ⟨c3_termination.1 _ _ rfl,
   (c3_termination.2.2.2.2.2.2.2.1 _ _ _ rfl).mpr ⟨rfl, [9], rfl, by decide⟩,
   c3_termination.2.2.2.2.2.2.2.2 _ _ [9] rfl rfl (by decide)⟩

/-- C4 counterexample: a datagram from a source with the PEER'S PORT but
a different IP is not "the established peer", yet `is_correct_tid` —
which compares only ports — accepts it: here a valid short DATA from the
foreign IP `9.9.9.9` advances the counter, writes the payload and even
terminates the transfer, and no ERROR(5) is sent to the source. -/
theorem c4_counterexample :
    (wrqStep ⟨("1.2.3.4".toList, 2000), 512, 3, [9], true, some (.ack 3), true, false⟩
        (.datagram ("9.9.9.9".toList, 2000) (.data 4 [1, 2, 3]))).1
      ≠ ⟨("1.2.3.4".toList, 2000), 512, 3, [9], true, some (.ack 3), true, false⟩
    ∧ (wrqStep ⟨("1.2.3.4".toList, 2000), 512, 3, [9], true, some (.ack 3), true, false⟩
        (.datagram ("9.9.9.9".toList, 2000) (.data 4 [1, 2, 3]))).1.counter = 4
    ∧ Op.send ("9.9.9.9".toList, 2000) errUnknownTid ∉
        (wrqStep ⟨("1.2.3.4".toList, 2000), 512, 3, [9], true, some (.ack 3), true, false⟩
          (.datagram ("9.9.9.9".toList, 2000) (.data 4 [1, 2, 3]))).2 := by
  decide

/-- C4 amended: the wrong-TID test compares source PORTS only (the IP is
ignored, so a foreign IP reusing the peer's port is treated as the
peer).  For every datagram whose source port differs from the peer's
TID, both engines send ERROR(5, "Unknown transfer id") to that source
and leave the whole engine state — counter, finished flag, iterator,
pending retransmit packet and timer flags — unchanged, with no timer
operation performed. -/
theorem c4_wrong_tid :
    (∀ (s : RRQState) (src : Addr) (pkt : Packet), s.closed = false →
      src.2 ≠ s.peer.2 →
      rrqStep s (.datagram src pkt) = (s, [Op.send src errUnknownTid]))
    ∧ (∀ (s : WRQState) (src : Addr) (pkt : Packet), s.closed = false →
      src.2 ≠ s.peer.2 →
      wrqStep s (.datagram src pkt) = (s, [Op.send src errUnknownTid])) := by
  constructor
  · intro s src pkt h hp
    simp [rrqStep, h, hp]
  · intro s src pkt h hp
    simp [wrqStep, h, hp]

/-- C4 witness: a concrete wrong-port datagram at each engine. -/
theorem c4_wrong_tid_witness :
    rrqStep ⟨("1.2.3.4".toList, 2000), 512, 1, [[5]], false, some (.data 1 [7]), true, false⟩
        (.datagram ("1.2.3.4".toList, 2001) (.ack 1))
      = (⟨("1.2.3.4".toList, 2000), 512, 1, [[5]], false, some (.data 1 [7]), true, false⟩,
        [Op.send ("1.2.3.4".toList, 2001) errUnknownTid])
    ∧ wrqStep ⟨("1.2.3.4".toList, 2000), 512, 3, [9], true, some (.ack 3), true, false⟩
        (.datagram ("1.2.3.4".toList, 9999) (.data 4 [1]))
      = (⟨("1.2.3.4".toList, 2000), 512, 3, [9], true, some (.ack 3), true, false⟩,
        [Op.send ("1.2.3.4".toList, 9999) errUnknownTid]) :=
  ⟨c4_wrong_tid.1 _ _ _ rfl (by decide), c4_wrong_tid.2 _ _ _ rfl (by decide)⟩

/-- C5 counterexample: a WRQ engine awaiting block 4 (counter = 3)
receives a duplicate DATA(3) from the correct TID.  The claim says the
engine re-ACKs the previously acknowledged block; the code's `else`
branch only logs — the step sends NOTHING (in particular no ACK(3)) and
changes no state.  (The previous ACK does keep flowing, but only because
`reply_to_client` reschedules itself on the retransmit timer,
independent of this datagram.) -/
theorem c5_counterexample :
    wrqStep ⟨("1.2.3.4".toList, 2000), 512, 3, [9, 9], true, some (.ack 3), true, false⟩
        (.datagram ("1.2.3.4".toList, 2000) (.data 3 [1, 2]))
      = (⟨("1.2.3.4".toList, 2000), 512, 3, [9, 9], true, some (.ack 3), true, false⟩, [])
    ∧ Op.send ("1.2.3.4".toList, 2000) (Packet.ack 3) ∉
        (wrqStep ⟨("1.2.3.4".toList, 2000), 512, 3, [9, 9], true, some (.ack 3), true, false⟩
          (.datagram ("1.2.3.4".toList, 2000) (.data 3 [1, 2]))).2 := by
  decide

/-- C5 amended: a correct-TID DATA whose block number is not the
expected `counter + 1` is ignored entirely: the payload is not written,
no packet is sent in response (no immediate re-ACK — the last ACK is
only repeated by the retransmit timer loop), and the state is unchanged,
so processing the same duplicate DATA any number of times is idempotent. -/
theorem c5_duplicate_data :
    ∀ (s : WRQState) (src : Addr) (b : Nat) (payload : List Nat),
      s.closed = false → src.2 = s.peer.2 → b ≠ s.counter + 1 →
      wrqStep s (.datagram src (.data b payload)) = (s, []) := by
  intro s src b payload h hp hb
  simp [wrqStep, h, hp, hb]

/-- C5 witness: concrete duplicate DATA at a live WRQ engine. -/
theorem c5_duplicate_data_witness :
    wrqStep ⟨("1.2.3.4".toList, 2000), 512, 7, [3, 3], true, some (.ack 7), true, false⟩
        (.datagram ("1.2.3.4".toList, 2000) (.data 7 [4, 4]))
      = (⟨("1.2.3.4".toList, 2000), 512, 7, [3, 3], true, some (.ack 7), true, false⟩, []) :=
  c5_duplicate_data _ _ 7 [4, 4] rfl rfl (by decide)

/-- C6: `reply_to_client` records the datagram it sends in the pending
retransmit timer, so when the timer fires on a live engine the engine
resends exactly that byte-identical datagram to the peer and reschedules
the timer with the same packet (first two conjuncts, for both engines);
and every valid progress-advancing packet — an ACK of the current
counter on the RRQ side, a DATA for the next block on the WRQ side —
runs `conn_timeout_reset`, whose ops include cancelling the pending
retransmit timer (last two conjuncts). -/
theorem c6_retransmit :
    (∀ (s : RRQState) (q : Packet), s.closed = false → s.lastSent = some q →
      rrqStep s .retransmitFire = (s, [Op.send s.peer q, Op.schedRetransmit q]))
    ∧ (∀ (s : WRQState) (q : Packet), s.closed = false → s.lastSent = some q →
      wrqStep s .retransmitFire = (s, [Op.send s.peer q, Op.schedRetransmit q]))
    ∧ (∀ (s : RRQState) (src : Addr), s.closed = false → src.2 = s.peer.2 →
      s.lastSent.isSome = true →
      Op.cancelRetransmit ∈ (rrqStep s (.datagram src (.ack s.counter))).2)
    ∧ (∀ (s : WRQState) (src : Addr) (payload : List Nat), s.closed = false →
      src.2 = s.peer.2 → s.lastSent.isSome = true →
      Op.cancelRetransmit ∈
        (wrqStep s (.datagram src (.data (s.counter + 1) payload))).2) := by
  refine ⟨?_, ?_, ?_, ?_⟩
  · intro s q h hls
    simp [rrqStep, h, hls]
  · intro s q h hls
    simp [wrqStep, h, hls]
  · intro s src h hp hls
    cases hch : s.chunks with
    | nil => cases hf : s.finished <;>
        simp [rrqStep, h, hp, hch, hf, connTimeoutResetOps, hls]
    | cons c rest => simp [rrqStep, h, hp, hch, connTimeoutResetOps, hls]
  · intro s src payload h hp hls
    by_cases hl : payload.length < s.blksize <;>
      simp [wrqStep, h, hp, hl, connTimeoutResetOps, hls]

/-- C6 witness: a concrete retransmit firing resends the pending DATA
unchanged, and a concrete progress packet's ops cancel the retransmit
timer. -/
theorem c6_retransmit_witness :
    rrqStep ⟨("1.2.3.4".toList, 2000), 512, 2, [[5]], false, some (.data 2 [7]), true, false⟩
        .retransmitFire
      = (⟨("1.2.3.4".toList, 2000), 512, 2, [[5]], false, some (.data 2 [7]), true, false⟩,
        [Op.send ("1.2.3.4".toList, 2000) (Packet.data 2 [7]),
          Op.schedRetransmit (Packet.data 2 [7])])
    ∧ Op.cancelRetransmit ∈
        (rrqStep ⟨("1.2.3.4".toList, 2000), 512, 2, [[5]], false, some (.data 2 [7]), true, false⟩
          (.datagram ("1.2.3.4".toList, 2000) (.ack 2))).2
    ∧ Op.cancelRetransmit ∈
        (wrqStep ⟨("1.2.3.4".toList, 2000), 512, 3, [9], true, some (.ack 3), true, false⟩
          (.datagram ("1.2.3.4".toList, 2000) (.data 4 [8]))).2 :=
  ⟨c6_retransmit.1 _ _ rfl rfl,
   c6_retransmit.2.2.1 _ _ rfl rfl rfl,
   c6_retransmit.2.2.2 _ _ [8] rfl rfl rfl⟩

/-- C7 witness: concrete instantiation of `c7_file_exists` at a WRQ with
a requested `blksize` option for an existing target. -/
theorem c7_file_exists_witness :
    (wrqInit true [("blksize".toList, "1024".toList)]).sent
      = Packet.err 6 "File already exists".toList
    ∧ (wrqInit true [("blksize".toList, "1024".toList)]).closed = true
    ∧ (wrqInit true [("blksize".toList, "1024".toList)]).created = false :=
  c7_file_exists [("blksize".toList, "1024".toList)]
